import Mathlib

/-!
Shallow embedding of the Terraform-generator backend
(`backend/utils/filesystem.go`, `backend/handlers/generate.go`)
and proofs about its value formatter and generation planner.
-/

set_option linter.unusedVariables false

/-- Embedding of a Go `interface{}` value as it occurs in the generator:
strings, booleans, numbers, nil, `[]interface{}` sequences,
`map[string]interface{}` and `map[string]string` mappings.
Mappings are carried as association lists whose list order stands for the
(unspecified) Go map iteration order. -/
inductive GoValue where
  | str : String → GoValue
  | boolean : Bool → GoValue
  | num : Int → GoValue
  | nil : GoValue
  | list : List GoValue → GoValue
  | mapAny : List (String × GoValue) → GoValue
  | mapStr : List (String × String) → GoValue
deriving Repr

mutual

/-- Embedding of Go `fmt.Sprintf("%v", v)` on the value shapes above. -/
def sprintV : GoValue → String
  | .str s => s
  | .boolean b => if b then "true" else "false"
  | .num n => toString n
  | .nil => "<nil>"
  | .list xs => "[" ++ String.intercalate " " (sprintVList xs) ++ "]"
  | .mapAny kvs => "map[" ++ String.intercalate " " (sprintVPairs kvs) ++ "]"
  | .mapStr kvs => "map[" ++ String.intercalate " " (kvs.map (fun kv => kv.1 ++ ":" ++ kv.2)) ++ "]"

/-- Helper of `sprintV` for the elements of a `[]interface{}` value. -/
def sprintVList : List GoValue → List String
  | [] => []
  | x :: xs => sprintV x :: sprintVList xs

/-- Helper of `sprintV` for the entries of a `map[string]interface{}` value. -/
def sprintVPairs : List (String × GoValue) → List String
  | [] => []
  | (k, v) :: kvs => (k ++ ":" ++ sprintV v) :: sprintVPairs kvs

end

/-- Embedding of Go `strings.HasPrefix p s` (argument order: pattern first). -/
def hasPre (p s : String) : Bool := p.toList.isPrefixOf s.toList

/-- Modelled from the spec: `models.Variable` (package `backend/models` is not
in the sources) — a variable declaration carrying a name, a type tag and a
default value. Only `Type` and `Default` are consulted by the formatter. -/
structure Variable where
  Name : String
  «Type» : String
  Default : GoValue

/-- First recognized object-shape type tag (exact string match in the source). -/
def objectTagVM : String :=
  "object(\x7b provision_vm_agent = bool, enable_automatic_upgrades = bool \x7d)"

/-- Second recognized object-shape type tag. -/
def objectTagImage : String :=
  "object(\x7b publisher = string, offer = string, sku = string, version = string \x7d)"

/-- Third recognized object-shape type tag. -/
def objectTagDisk : String :=
  "object(\x7b name = string, caching = string, create_option = string, managed_disk_type = string \x7d)"

/-- Entry builder of the `map(string)` branch for a `map[string]interface{}`:
`fmt.Sprintf("\"%s\" = \"%v\"", key, val)` over the iteration order. -/
def mapAnyEntries (kvs : List (String × GoValue)) : List String :=
  kvs.map (fun kv => "\"" ++ kv.1 ++ "\" = \"" ++ sprintV kv.2 ++ "\"")

/-- Entry builder of the `map(string)` branch for a `map[string]string`. -/
def mapStrEntries (kvs : List (String × String)) : List String :=
  kvs.map (fun kv => "\"" ++ kv.1 ++ "\" = \"" ++ kv.2 ++ "\"")

/-- Embedding of the `formatValue` template helper of
`backend/utils/filesystem.go` (lines 171–235): a type-tag-directed
serializer from a dynamic value to Terraform literal text. -/
def formatValue (value : GoValue) (varType : String) : String :=
  if varType = "bool" ∨ varType = "number" then
    sprintV value
  else if varType = "string" then
    match value with
    | .str expr => if hasPre "var." expr then expr else "\"" ++ expr ++ "\""
    | _ => "\"" ++ sprintV value ++ "\""
  else if varType = "list(string)" ∨ varType = "set(string)" then
    match value with
    | .list l =>
      let items := l.map (fun item => "\"" ++ sprintV item ++ "\"")
      if varType = "set(string)" then
        "toset([" ++ String.intercalate ", " items ++ "])"
      else
        "[" ++ String.intercalate ", " items ++ "]"
    | _ => "[]"
  else if varType = "map(string)" then
    let entries : List String :=
      match value with
      | .mapAny kvs => mapAnyEntries kvs
      | .mapStr kvs => mapStrEntries kvs
      | _ => []
    "\x7b " ++ String.intercalate ", " entries ++ " \x7d"
  else if varType = objectTagVM ∨ varType = objectTagImage ∨ varType = objectTagDisk then
    match value with
    | .str expr => expr
    | _ => "\x7b\x7d"
  else if varType = "tuple" then
    match value with
    | .list tuple =>
      "[" ++ String.intercalate ", " (tuple.map (fun item =>
        match item with
        | .str _ => "\"" ++ sprintV item ++ "\""
        | _ => sprintV item)) ++ "]"
    | _ => "[]"
  else
    sprintV value

/-- Field builder of the object-shape branch of `formatDefault`:
string values are emitted quoted, everything else raw, the key always quoted. -/
def objFieldEntries (kvs : List (String × GoValue)) : List String :=
  kvs.map (fun kv =>
    match kv.2 with
    | .str s => "\"" ++ kv.1 ++ "\" = \"" ++ s ++ "\""
    | v => "\"" ++ kv.1 ++ "\" = " ++ sprintV v)

/-- Embedding of `formatDefault` of `backend/utils/filesystem.go`
(top-level copy at lines 61–133 and identical funcMap copy at lines
238–310): formats a variable's stored default under its declared type tag. -/
def formatDefault (varDef : Variable) : String :=
  if varDef.«Type» = "bool" ∨ varDef.«Type» = "number" then
    sprintV varDef.Default
  else if varDef.«Type» = "string" then
    match varDef.Default with
    | .str expr => if hasPre "var." expr then expr else "\"" ++ expr ++ "\""
    | _ => "\"" ++ sprintV varDef.Default ++ "\""
  else if varDef.«Type» = "list(string)" ∨ varDef.«Type» = "set(string)" then
    match varDef.Default with
    | .list l =>
      let items := l.map (fun item => "\"" ++ sprintV item ++ "\"")
      if varDef.«Type» = "set(string)" then
        "toset([" ++ String.intercalate ", " items ++ "])"
      else
        "[" ++ String.intercalate ", " items ++ "]"
    | _ => "[]"
  else if varDef.«Type» = "map(string)" then
    let entries : List String :=
      match varDef.Default with
      | .mapAny kvs => mapAnyEntries kvs
      | .mapStr kvs => mapStrEntries kvs
      | _ => []
    "\x7b " ++ String.intercalate ", " entries ++ " \x7d"
  else if varDef.«Type» = objectTagVM ∨ varDef.«Type» = objectTagImage ∨ varDef.«Type» = objectTagDisk then
    match varDef.Default with
    | .mapAny objMap => "\x7b " ++ String.intercalate ", " (objFieldEntries objMap) ++ " \x7d"
    | _ => "\x7b\x7d"
  else if varDef.«Type» = "tuple" then
    match varDef.Default with
    | .list tuple =>
      "[" ++ String.intercalate ", " (tuple.map (fun item =>
        match item with
        | .str _ => "\"" ++ sprintV item ++ "\""
        | _ => sprintV item)) ++ "]"
    | _ => "[]"
  else
    sprintV varDef.Default


/-- Modelled from the spec: `models.Provider` (package `backend/models` is not
in the sources) — a configured provider; only its `Name` is consulted here. -/
structure Provider where
  Name : String
deriving Repr, DecidableEq

/-- Modelled from the spec: `models.Config` (package `backend/models` is not in
the sources) — the configuration loaded from `terraform-generator.json`, with
exactly the fields read by `prepareTemplateData` and `GenerateTerraform`. -/
structure Config where
  Providers : List Provider
  TerraformVersion : String
  Modules : GoValue
  Region : String
  Environment : String
  Backend : GoValue
  Variables : GoValue

/-- Modelled from the spec: `models.GenerateRequest` (package `backend/models`
is not in the sources) — organisation, product, provider and an optional
customer list. -/
structure GenerateRequest where
  OrganisationName : String
  ProductName : String
  Provider : String
  Customers : List String

/-- Value stored in the template data context built by `prepareTemplateData`. -/
inductive CtxVal where
  | str : String → CtxVal
  | prov : Provider → CtxVal
  | val : GoValue → CtxVal

/-- The template data context: the Go `map[string]interface{}` passed to the
renderer, embedded as a partial map from key to value. -/
def Ctx : Type := String → Option CtxVal

/-- Embedding of the Go map assignment `data[k] = v` on a context. -/
def ctxSet (d : Ctx) (k : String) (v : CtxVal) : Ctx :=
  fun q => if q = k then some v else d q

/-- Embedding of `prepareTemplateData` of `backend/handlers/generate.go`
(lines 135–148). -/
def prepareTemplateData (req : GenerateRequest) (config : Config)
    (provider : Provider) (customerName : String) : Ctx := fun k =>
  if k = "Provider" then some (.prov provider)
  else if k = "TerraformVersion" then some (.str config.TerraformVersion)
  else if k = "Modules" then some (.val config.Modules)
  else if k = "OrganisationName" then some (.str req.OrganisationName)
  else if k = "ProductName" then some (.str req.ProductName)
  else if k = "CustomerName" then some (.str customerName)
  else if k = "Region" then some (.str config.Region)
  else if k = "Environment" then some (.str config.Environment)
  else if k = "Backend" then some (.val config.Backend)
  else if k = "Variables" then some (.val config.Variables)
  else none

/-- Error values carried by the embedding (Go `error`). -/
def Err : Type := String

/-- Record of one successful template render: which template was executed,
where the output was written, and the data context it was rendered against. -/
structure RenderCall where
  tmplPath : String
  dest : String
  ctx : Ctx

/-- Filesystem-and-trace state threaded through the embedded handlers:
the set of directories created so far, the file contents written so far,
and the ordered log of renders performed. -/
structure St where
  dirs : List String
  files : List (String × String)
  log : List RenderCall

/-- Embedding of `utils.WriteFile` / `os.WriteFile` semantics on the file map:
creates the file or overwrites its previous content. -/
def WriteFile (files : List (String × String)) (path content : String) :
    List (String × String) :=
  match files with
  | [] => [(path, content)]
  | (q, c) :: rest =>
    if q = path then (path, content) :: rest else (q, c) :: WriteFile rest path content

/-- Embedding of Go `filepath.Dir`: the path with its last component removed. -/
def dirOf (p : String) : String :=
  let parts := p.splitOn "/"
  if parts.length ≤ 1 then "." else String.intercalate "/" parts.dropLast

/-- Environment supplied to the embedded handlers: the outcome of loading the
configuration, and oracles for template-parse errors, directory-creation
errors and template-execution results. -/
structure Sys where
  loadCfg : Except Err Config
  parseErr : String → Option Err
  mkdirErr : String → Option Err
  renderRes : String → Ctx → Except Err String

/-- Embedding of `utils.CreateDirectories` (`filesystem.go` lines 46–53):
`os.MkdirAll` over each path, aborting on the first failure. -/
def CreateDirectories (sys : Sys) (paths : List String) (st : St) : St × Option Err :=
  match paths with
  | [] => (st, none)
  | p :: rest =>
    match sys.mkdirErr p with
    | some e => (st, some e)
    | none => CreateDirectories sys rest { st with dirs := st.dirs ++ [p] }

/-- Embedding of `utils.GenerateFileFromTemplate` (`filesystem.go` lines
136–332): parse the template, ensure the destination directory exists,
execute the template, write the output; the render log records the call. -/
def GenerateFileFromTemplate (sys : Sys) (templatePath destinationPath : String)
    (data : Ctx) (st : St) : St × Option Err :=
  match sys.parseErr templatePath with
  | some e => (st, some e)
  | none =>
    match sys.mkdirErr (dirOf destinationPath) with
    | some e => (st, some e)
    | none =>
      let st1 : St := { st with dirs := st.dirs ++ [dirOf destinationPath] }
      match sys.renderRes templatePath data with
      | .error e => (st1, some e)
      | .ok out =>
        ({ st1 with
            files := WriteFile st1.files destinationPath out
            log := st1.log ++ [⟨templatePath, destinationPath, data⟩] }, none)

/-- Shared loop body of the handlers: render a list of (template, destination)
pairs in order against one data context, aborting on the first failure. -/
def runFiles (sys : Sys) (data : Ctx) (files : List (String × String)) (st : St) :
    St × Option Err :=
  match files with
  | [] => (st, none)
  | (t, d) :: rest =>
    match GenerateFileFromTemplate sys t d data st with
    | (st1, some e) => (st1, some e)
    | (st1, none) => runFiles sys data rest st1

/-- Embedding of `generateTerraformFiles` of `backend/handlers/generate.go`
(lines 151–168): the fixed base pass of four files. -/
def generateTerraformFiles (sys : Sys) (path : String) (data : Ctx)
    (provider entityName : String) (st : St) : St × Option Err :=
  runFiles sys data
    [("templates/generic/providers.tf.tmpl", path ++ "/providers.tf"),
     ("templates/" ++ provider ++ "/main.tf.tmpl", path ++ "/main.tf"),
     ("templates/generic/variables.tf.tmpl", path ++ "/variables.tf"),
     ("templates/generic/vars.tfvars.tmpl", path ++ "/vars.tfvars")] st

/-- Per-environment loop of `generateBackendTfvarsFiles` (`generate.go` lines
171–182): sets the context's "Environment", renders the backend tfvars file.
Returns the mutated context along with the state, since the Go code mutates
the shared map in place. -/
def backendEnvLoop (sys : Sys) (path productName : String) (envs : List String)
    (data : Ctx) (st : St) : Ctx × St × Option Err :=
  match envs with
  | [] => (data, st, none)
  | env :: rest =>
    let data1 := ctxSet data "Environment" (.str env)
    let filename := productName ++ "_" ++ env ++ ".tfvars"
    match GenerateFileFromTemplate sys "templates/generic/backend.tfvars.tmpl"
        (path ++ "/backend/" ++ filename) data1 st with
    | (st1, some e) => (data1, st1, some e)
    | (st1, none) => backendEnvLoop sys path productName rest data1 st1

/-- Embedding of `generateBackendTfvarsFiles` (`generate.go` lines 171–182). -/
def generateBackendTfvarsFiles (sys : Sys) (path : String) (data : Ctx)
    (productName : String) (st : St) : Ctx × St × Option Err :=
  backendEnvLoop sys path productName ["nonprod", "prod"] data st

/-- Per-environment loop of `generateBackendAndVarsTfvarsFiles` (`generate.go`
lines 185–204): sets the context's "Environment", renders the backend tfvars
file then the vars tfvars file. -/
def backendVarsEnvLoop (sys : Sys) (path customerName : String) (envs : List String)
    (data : Ctx) (st : St) : Ctx × St × Option Err :=
  match envs with
  | [] => (data, st, none)
  | env :: rest =>
    let data1 := ctxSet data "Environment" (.str env)
    match runFiles sys data1
        [("templates/generic/backend.tfvars.tmpl",
          path ++ "/backend/" ++ customerName ++ "_" ++ env ++ ".tfvars"),
         ("templates/generic/vars.tfvars.tmpl",
          path ++ "/vars/" ++ customerName ++ "_" ++ env ++ ".tfvars")] st with
    | (st1, some e) => (data1, st1, some e)
    | (st1, none) => backendVarsEnvLoop sys path customerName rest data1 st1

/-- Embedding of `generateBackendAndVarsTfvarsFiles` (`generate.go` lines
185–204). -/
def generateBackendAndVarsTfvarsFiles (sys : Sys) (path : String) (data : Ctx)
    (customerName : String) (st : St) : Ctx × St × Option Err :=
  backendVarsEnvLoop sys path customerName ["nonprod", "prod"] data st

/-- Embedding of `generateCustomerFiles` (`generate.go` lines 122–132). -/
def generateCustomerFiles (sys : Sys) (req : GenerateRequest) (config : Config)
    (customerPath customerName : String) (provider : Provider) (st : St) :
    St × Option Err :=
  let data := prepareTemplateData req config provider customerName
  match generateTerraformFiles sys customerPath data req.Provider customerName st with
  | (st1, some e) => (st1, some e)
  | (st1, none) =>
    let r := generateBackendAndVarsTfvarsFiles sys customerPath data customerName st1
    (r.2.1, r.2.2)

/-- Embedding of `generateProductFiles` (`generate.go` lines 109–119). -/
def generateProductFiles (sys : Sys) (req : GenerateRequest) (config : Config)
    (productPath : String) (provider : Provider) (st : St) : St × Option Err :=
  let data := prepareTemplateData req config provider ""
  match generateTerraformFiles sys productPath data req.Provider req.ProductName st with
  | (st1, some e) => (st1, some e)
  | (st1, none) =>
    let r := generateBackendTfvarsFiles sys productPath data req.ProductName st1
    (r.2.1, r.2.2)

/-- Loop body of `processCustomers` (`generate.go` lines 86–106), recursing
over the customer list: trim the name, create the directories, generate the
files, abort on the first failure. -/
def processCustomersList (sys : Sys) (req : GenerateRequest) (config : Config)
    (basePath : String) (provider : Provider) (customers : List String) (st : St) :
    St × Option Err :=
  match customers with
  | [] => (st, none)
  | customer :: rest =>
    let customer1 := customer.trim
    let customerPath := basePath ++ "/" ++ customer1
    match CreateDirectories sys
        [customerPath ++ "/backend", customerPath ++ "/vars"] st with
    | (st1, some e) => (st1, some e)
    | (st1, none) =>
      match generateCustomerFiles sys req config customerPath customer1 provider st1 with
      | (st2, some e) => (st2, some e)
      | (st2, none) => processCustomersList sys req config basePath provider rest st2

/-- Embedding of `processCustomers` (`generate.go` lines 86–106). -/
def processCustomers (sys : Sys) (req : GenerateRequest) (config : Config)
    (basePath : String) (provider : Provider) (st : St) : St × Option Err :=
  processCustomersList sys req config basePath provider req.Customers st

/-- Embedding of the provider alias table of `filterProviderData`
(`generate.go` lines 67–73); a Go map lookup yields the zero value `""`
for a key that is absent. -/
def aliases (k : String) : String :=
  if k = "azure" then "azurerm"
  else if k = "aws" then "aws"
  else if k = "gcp" then "google"
  else if k = "azurerm" then "azurerm"
  else if k = "google" then "google"
  else ""

/-- Embedding of Go `strings.ToLower` (ASCII case mapping, which covers every
name the alias table and configuration use). -/
def goToLower (s : String) : String :=
  String.mk (s.data.map (fun c => if 'A' ≤ c ∧ c ≤ 'Z' then Char.ofNat (c.toNat + 32) else c))

/-- Embedding of `filterProviderData` (`generate.go` lines 66–83): normalise
the requested provider through the alias table, then find the first
configured provider whose name matches case-insensitively
(`strings.EqualFold`). -/
def filterProviderData (providers : List Provider) (providerName : String) :
    Option Provider :=
  let normalizedProvider := aliases (goToLower providerName)
  providers.find? (fun provider => goToLower provider.Name = goToLower normalizedProvider)

/-- Embedding of `GenerateTerraform` (`generate.go` lines 33–63): validate the
request, load the configuration, resolve the provider, then branch between
multi-customer and single-product generation. -/
def GenerateTerraform (sys : Sys) (req : GenerateRequest) (st : St) : St × Option Err :=
  if req.OrganisationName = "" ∨ req.ProductName = "" ∨ req.Provider = "" then
    (st, some "organisation_name, product_name, and provider are required")
  else
    match sys.loadCfg with
    | .error e => (st, some e)
    | .ok config =>
      match filterProviderData config.Providers req.Provider with
      | none => (st, some "specified provider not found in configuration")
      | some providerData =>
        let basePath := "output/" ++ req.Provider ++ "/" ++ req.OrganisationName
        if req.Customers.length > 0 then
          processCustomers sys req config basePath providerData st
        else
          let productPath := basePath ++ "/" ++ req.ProductName
          match CreateDirectories sys [productPath ++ "/backend"] st with
          | (st1, some e) => (st1, some e)
          | (st1, none) => generateProductFiles sys req config productPath providerData st1

/-- Fixture: a configuration with one configured provider, used by witnesses. -/
def cfg0 : Config :=
  ⟨[⟨"azurerm"⟩], "1.5.0", .nil, "uksouth", "dev", .nil, .nil⟩

/-- Fixture: an environment whose configuration loads, whose templates parse
and render, and whose directory creation succeeds, used by witnesses. -/
def sys0 : Sys :=
  ⟨.ok cfg0, fun _ => none, fun _ => none, fun _ _ => .ok "rendered"⟩

/-- Fixture: a request naming a provider that no alias resolves. -/
def req0 : GenerateRequest :=
  ⟨"acme-org", "payments", "digitalocean", []⟩

/-- Fixture: the empty starting state. -/
def st0 : St := ⟨[], [], []⟩

theorem formatDefault_object_tag (name tag : String)
    (h : tag = objectTagVM ∨ tag = objectTagImage ∨ tag = objectTagDisk) (v : GoValue) :
    formatDefault ⟨name, tag, v⟩ =
      (match v with
       | .mapAny objMap => "\x7b " ++ String.intercalate ", " (objFieldEntries objMap) ++ " \x7d"
       | _ => "\x7b\x7d") := by
  rcases h with h | h | h <;> subst h <;> rfl

theorem formatValue_object_tag (tag : String)
    (h : tag = objectTagVM ∨ tag = objectTagImage ∨ tag = objectTagDisk) (v : GoValue) :
    formatValue v tag =
      (match v with
       | .str expr => expr
       | _ => "\x7b\x7d") := by
  rcases h with h | h | h <;> subst h <;> rfl

/-- Claim C1 counterexample: on the object-shape type tags the two formatting
paths disagree — for a variable of object type whose default is the string
"var.os_profile", `formatValue` passes the expression through while
`formatDefault` collapses it to the empty object literal. -/
theorem formatDefault_ne_formatValue_on_object_tag :
    formatValue (GoValue.str "var.os_profile") objectTagVM = "var.os_profile" ∧
    formatDefault ⟨"n", objectTagVM, GoValue.str "var.os_profile"⟩ = "\x7b\x7d" ∧
    ("var.os_profile" : String) ≠ "\x7b\x7d" :=
  ⟨by decide, by decide, by decide⟩

/-- Claim C1 (amended): for every Variable whose type tag is not one of the
three fixed object-shape tags, formatting its stored default via
`formatDefault` produces exactly the same literal text as formatting the pair
(Default, Type) via `formatValue`; on the object-shape tags the two call
sites differ. -/
theorem formatDefault_eq_formatValue_of_not_object (v : Variable)
    (h : ¬(v.«Type» = objectTagVM ∨ v.«Type» = objectTagImage ∨ v.«Type» = objectTagDisk)) :
    formatDefault v = formatValue v.Default v.«Type» := by
  unfold formatDefault formatValue
  split_ifs <;> rfl

/-- Witness for the amended C1 theorem at a concrete non-object variable. -/
theorem formatDefault_eq_formatValue_witness :
    formatDefault ⟨"n", "string", .str "bar"⟩ = formatValue (GoValue.str "bar") "string" :=
  formatDefault_eq_formatValue_of_not_object ⟨"n", "string", .str "bar"⟩ (by decide)

/-- Claim C2 counterexample: an absent (nil) value formatted under
`set(string)` yields the plain empty list literal `[]`, not the
set-constructor around an empty list. -/
theorem set_string_mismatch_not_toset :
    formatValue GoValue.nil "set(string)" = "[]" ∧
    formatDefault ⟨"n", "set(string)", GoValue.nil⟩ = "[]" ∧
    ("[]" : String) ≠ "toset([])" :=
  ⟨by decide, by decide, by decide⟩

/-- Claim C2 (amended): formatting an absent or non-sequence value under
`list(string)` or under `set(string)` yields the empty list literal `[]` in
both formatting paths (the set-constructor is not applied in the mismatch
case); only a present, genuinely empty sequence under `set(string)` yields
`toset([])`. Neither case is an error. -/
theorem list_set_mismatch_empty_list (v : GoValue) (h : ∀ l, v ≠ GoValue.list l) :
    formatValue v "list(string)" = "[]" ∧
    formatValue v "set(string)" = "[]" ∧
    formatDefault ⟨"n", "list(string)", v⟩ = "[]" ∧
    formatDefault ⟨"n", "set(string)", v⟩ = "[]" ∧
    formatValue (GoValue.list []) "set(string)" = "toset([])" := by
  cases v with
  | list l => exact (h l rfl).elim
  | str s => exact ⟨rfl, rfl, rfl, rfl, rfl⟩
  | boolean b => exact ⟨rfl, rfl, rfl, rfl, rfl⟩
  | num n => exact ⟨rfl, rfl, rfl, rfl, rfl⟩
  | nil => exact ⟨rfl, rfl, rfl, rfl, rfl⟩
  | mapAny kvs => exact ⟨rfl, rfl, rfl, rfl, rfl⟩
  | mapStr kvs => exact ⟨rfl, rfl, rfl, rfl, rfl⟩

/-- Witness for the amended C2 theorem at the absent value. -/
theorem list_set_mismatch_empty_list_witness :
    formatValue GoValue.nil "list(string)" = "[]" ∧
    formatValue GoValue.nil "set(string)" = "[]" ∧
    formatDefault ⟨"n", "list(string)", GoValue.nil⟩ = "[]" ∧
    formatDefault ⟨"n", "set(string)", GoValue.nil⟩ = "[]" ∧
    formatValue (GoValue.list []) "set(string)" = "toset([])" :=
  list_set_mismatch_empty_list GoValue.nil (fun l h => by cases h)

/-- Claim C3 counterexample: under an object-shape tag, `formatDefault` emits
the field key QUOTED (`"publisher" = "Canonical"`), not unquoted as the claim
states; and `formatValue` does not emit fields of a mapping at all — it
collapses any mapping to the empty object literal. -/
theorem object_shape_quoted_key_cex :
    formatDefault ⟨"n", objectTagImage, .mapAny [("publisher", .str "Canonical")]⟩
      = "\x7b \"publisher\" = \"Canonical\" \x7d" ∧
    ("\x7b \"publisher\" = \"Canonical\" \x7d" : String)
      ≠ "\x7b publisher = \"Canonical\" \x7d" ∧
    formatValue (GoValue.mapAny [("publisher", .str "Canonical")]) objectTagImage
      = "\x7b\x7d" :=
  ⟨by decide, by decide, by decide⟩

/-- Claim C3 (amended): under the three object-shape tags, `formatDefault`
emits each field of a mapping as `"key" = value` with the key quoted, string
field values quoted and other scalar field values unquoted, and collapses a
non-mapping to `\x7b\x7d`; `formatValue` instead returns a string value
unchanged (treating it as an expression) and collapses every non-string
value, mappings included, to `\x7b\x7d`. -/
theorem object_shape_formatting (tag : String)
    (htag : tag = objectTagVM ∨ tag = objectTagImage ∨ tag = objectTagDisk) :
    (∀ name key s, formatDefault ⟨name, tag, .mapAny [(key, .str s)]⟩
        = "\x7b \"" ++ key ++ "\" = \"" ++ s ++ "\" \x7d") ∧
    (∀ name key b, formatDefault ⟨name, tag, .mapAny [(key, .boolean b)]⟩
        = "\x7b \"" ++ key ++ "\" = " ++ (if b then "true" else "false") ++ " \x7d") ∧
    (∀ name v, (∀ kvs, v ≠ GoValue.mapAny kvs) → formatDefault ⟨name, tag, v⟩ = "\x7b\x7d") ∧
    (∀ s, formatValue (GoValue.str s) tag = s) ∧
    (∀ v, (∀ s, v ≠ GoValue.str s) → formatValue v tag = "\x7b\x7d") := by
  refine ⟨?_, ?_, ?_, ?_, ?_⟩
  · intro name key s
    rw [formatDefault_object_tag name tag htag]
    simp only [objFieldEntries, List.map_cons, List.map_nil, String.intercalate,
      String.intercalate.go, String.append_assoc]
    rw [← String.append_assoc]
    rfl
  · intro name key b
    rw [formatDefault_object_tag name tag htag]
    simp only [objFieldEntries, sprintV, List.map_cons, List.map_nil, String.intercalate,
      String.intercalate.go, String.append_assoc]
    rw [← String.append_assoc]
    rfl
  · intro name v hv
    rw [formatDefault_object_tag name tag htag]
    cases v with
    | mapAny kvs => exact (hv kvs rfl).elim
    | str s => rfl
    | boolean b => rfl
    | num n => rfl
    | nil => rfl
    | list l => rfl
    | mapStr kvs => rfl
  · intro s
    rw [formatValue_object_tag tag htag]
  · intro v hv
    rw [formatValue_object_tag tag htag]
    cases v with
    | str s => exact (hv s rfl).elim
    | boolean b => rfl
    | num n => rfl
    | nil => rfl
    | list l => rfl
    | mapAny kvs => rfl
    | mapStr kvs => rfl

/-- Witness for the amended C3 theorem at the first object tag. -/
theorem object_shape_formatting_witness :
    formatDefault ⟨"n", objectTagVM, .mapAny [("provision_vm_agent", .boolean true)]⟩
      = "\x7b \"provision_vm_agent\" = " ++ (if true then "true" else "false") ++ " \x7d" ∧
    formatValue (GoValue.str "var.cfg") objectTagVM = "var.cfg" ∧
    formatDefault ⟨"n", objectTagVM, GoValue.nil⟩ = "\x7b\x7d" :=
  ⟨(object_shape_formatting objectTagVM (Or.inl rfl)).2.1 "n" "provision_vm_agent" true,
   (object_shape_formatting objectTagVM (Or.inl rfl)).2.2.2.1 "var.cfg",
   (object_shape_formatting objectTagVM (Or.inl rfl)).2.2.1 "n" GoValue.nil
     (fun kvs h => by cases h)⟩

/-- Claim C8: a string value formatted under type tag `string` is returned
unchanged when it starts with `var.` and surrounded by double quotes
otherwise, identically in both formatting paths. -/
theorem string_tag_var_reference (s : String) :
    formatValue (GoValue.str s) "string"
      = (if hasPre "var." s then s else "\"" ++ s ++ "\"") ∧
    formatDefault ⟨"n", "string", GoValue.str s⟩
      = (if hasPre "var." s then s else "\"" ++ s ++ "\"") :=
  ⟨rfl, rfl⟩

/-- Claim C10: a value that is neither a string-keyed mapping of dynamic
values nor a string-keyed mapping of strings formats under `map(string)` to
the empty brace literal with no pairs ("\x7b  \x7d"), in both paths, and never
fails. -/
theorem map_string_lenient_fallback (v : GoValue)
    (hA : ∀ kvs, v ≠ GoValue.mapAny kvs) (hS : ∀ kvs, v ≠ GoValue.mapStr kvs) :
    formatValue v "map(string)" = "\x7b  \x7d" ∧
    formatDefault ⟨"n", "map(string)", v⟩ = "\x7b  \x7d" := by
  cases v with
  | mapAny kvs => exact (hA kvs rfl).elim
  | mapStr kvs => exact (hS kvs rfl).elim
  | str s => exact ⟨rfl, rfl⟩
  | boolean b => exact ⟨rfl, rfl⟩
  | num n => exact ⟨rfl, rfl⟩
  | nil => exact ⟨rfl, rfl⟩
  | list l => exact ⟨rfl, rfl⟩

/-- Witness for the C10 theorem at the absent value. -/
theorem map_string_lenient_fallback_witness :
    formatValue GoValue.nil "map(string)" = "\x7b  \x7d" ∧
    formatDefault ⟨"n", "map(string)", GoValue.nil⟩ = "\x7b  \x7d" :=
  map_string_lenient_fallback GoValue.nil (fun kvs h => by cases h) (fun kvs h => by cases h)

theorem WriteFile_overwrite (files : List (String × String)) (p c : String) :
    WriteFile (WriteFile files p c) p c = WriteFile files p c := by
  induction files with
  | nil => simp [WriteFile]
  | cons hd tl ih =>
    by_cases h : hd.1 = p
    · simp [WriteFile, h]
    · simp [WriteFile, h, ih]

/-- Claim C4 counterexample: the same Go map observed under two legal
iteration orders (the association lists are permutations of each other)
renders to different literal text, both in the `map(string)` branch and in
the object-shape branch of `formatDefault` (which ranges over a Go map the
same way), so a re-run is not guaranteed byte-identical output once a
`map(string)` or object-shape default has more than one entry. -/
theorem map_iteration_order_changes_output :
    List.Perm [("a", GoValue.str "1"), ("b", GoValue.str "2")]
      [("b", GoValue.str "2"), ("a", GoValue.str "1")] ∧
    formatValue (GoValue.mapAny [("a", .str "1"), ("b", .str "2")]) "map(string)"
      ≠ formatValue (GoValue.mapAny [("b", .str "2"), ("a", .str "1")]) "map(string)" ∧
    List.Perm
      [("provision_vm_agent", GoValue.boolean true),
       ("enable_automatic_upgrades", GoValue.boolean false)]
      [("enable_automatic_upgrades", GoValue.boolean false),
       ("provision_vm_agent", GoValue.boolean true)] ∧
    formatDefault ⟨"n", objectTagVM,
        .mapAny [("provision_vm_agent", .boolean true),
                 ("enable_automatic_upgrades", .boolean false)]⟩
      ≠ formatDefault ⟨"n", objectTagVM,
        .mapAny [("enable_automatic_upgrades", .boolean false),
                 ("provision_vm_agent", .boolean true)]⟩ :=
  ⟨List.Perm.swap _ _ _, by decide, List.Perm.swap _ _ _, by decide⟩

/-- Claim C4 (amended): re-running generation against an already-populated
tree overwrites each file: rendering and writing the same template, context
and destination a second time leaves the file map byte-identical to the
first run. The rendered content itself is byte-identical whenever every
`map(string)` and object-shape default presents at most one entry (or the Go
maps' iteration orders happen to coincide); for `map(string)` or object
defaults with more than one entry the emitted entry lists of the two runs
agree only up to permutation, following the maps' unspecified iteration
orders. -/
theorem regeneration_overwrite_and_map_order :
    (∀ (sys : Sys) (t d : String) (c : Ctx) (st : St) (out : String),
      sys.parseErr t = none → sys.mkdirErr (dirOf d) = none →
      sys.renderRes t c = Except.ok out →
      (GenerateFileFromTemplate sys t d c
          (GenerateFileFromTemplate sys t d c st).1).1.files
        = (GenerateFileFromTemplate sys t d c st).1.files) ∧
    (∀ kvs kvs' : List (String × GoValue), kvs.Perm kvs' →
      (mapAnyEntries kvs).Perm (mapAnyEntries kvs') ∧
      (objFieldEntries kvs).Perm (objFieldEntries kvs') ∧
      (kvs.length ≤ 1 →
        formatValue (GoValue.mapAny kvs) "map(string)"
          = formatValue (GoValue.mapAny kvs') "map(string)" ∧
        ∀ name tag, formatDefault ⟨name, tag, GoValue.mapAny kvs⟩
          = formatDefault ⟨name, tag, GoValue.mapAny kvs'⟩)) := by
  constructor
  · intro sys t d c st out hp hm hout
    have key : ∀ s : St, GenerateFileFromTemplate sys t d c s =
        ({ s with dirs := s.dirs ++ [dirOf d],
                  files := WriteFile s.files d out,
                  log := s.log ++ [⟨t, d, c⟩] }, none) := by
      intro s
      unfold GenerateFileFromTemplate
      rw [hp, hm, hout]
    rw [key st, key _]
    exact WriteFile_overwrite st.files d out
  · intro kvs kvs' hperm
    refine ⟨hperm.map _, hperm.map _, ?_⟩
    intro hlen
    have heq : kvs = kvs' := by
      cases kvs with
      | nil => exact (List.Perm.nil_eq hperm).symm ▸ rfl
      | cons x rest =>
        cases rest with
        | nil => exact (List.perm_singleton.mp hperm.symm).symm
        | cons y rest2 => simp at hlen
    subst heq
    exact ⟨rfl, fun name tag => rfl⟩

/-- Witness for the amended C4 theorem: a concrete second render-and-write
leaves the file map unchanged, and a singleton map formats order-stably. -/
theorem regeneration_overwrite_and_map_order_witness :
    (GenerateFileFromTemplate sys0 "templates/generic/providers.tf.tmpl"
        "output/azurerm/acme-org/acme/providers.tf" (fun _ => none)
        (GenerateFileFromTemplate sys0 "templates/generic/providers.tf.tmpl"
          "output/azurerm/acme-org/acme/providers.tf" (fun _ => none) st0).1).1.files
      = (GenerateFileFromTemplate sys0 "templates/generic/providers.tf.tmpl"
          "output/azurerm/acme-org/acme/providers.tf" (fun _ => none) st0).1.files ∧
    formatValue (GoValue.mapAny [("a", .str "1")]) "map(string)"
      = formatValue (GoValue.mapAny [("a", .str "1")]) "map(string)" :=
  ⟨regeneration_overwrite_and_map_order.1 sys0 "templates/generic/providers.tf.tmpl"
      "output/azurerm/acme-org/acme/providers.tf" (fun _ => none) st0 "rendered" rfl rfl rfl,
   ((regeneration_overwrite_and_map_order.2 _ _ (List.Perm.refl _)).2.2 (by decide)).1⟩

theorem gfft_run (sys : Sys) (hp : ∀ t, sys.parseErr t = none)
    (hm : ∀ p, sys.mkdirErr p = none)
    (hr : ∀ t c, ∃ out, sys.renderRes t c = Except.ok out)
    (t d : String) (c : Ctx) (st : St) :
    ∃ out, GenerateFileFromTemplate sys t d c st =
      ({ st with dirs := st.dirs ++ [dirOf d],
                 files := WriteFile st.files d out,
                 log := st.log ++ [⟨t, d, c⟩] }, none) := by
  obtain ⟨out, hout⟩ := hr t c
  refine ⟨out, ?_⟩
  unfold GenerateFileFromTemplate
  rw [hp t, hm (dirOf d), hout]

theorem runFiles_run (sys : Sys) (hp : ∀ t, sys.parseErr t = none)
    (hm : ∀ p, sys.mkdirErr p = none)
    (hr : ∀ t c, ∃ out, sys.renderRes t c = Except.ok out)
    (c : Ctx) (files : List (String × String)) (st : St) :
    ∃ stF, runFiles sys c files st = (stF, none) ∧
      stF.log = st.log ++ files.map (fun f => (⟨f.1, f.2, c⟩ : RenderCall)) := by
  induction files generalizing st with
  | nil => exact ⟨st, rfl, by simp⟩
  | cons f rest ih =>
    obtain ⟨t, d⟩ := f
    obtain ⟨out, hg⟩ := gfft_run sys hp hm hr t d c st
    obtain ⟨stF, hrun, hlog⟩ := ih _
    refine ⟨stF, ?_, ?_⟩
    · unfold runFiles
      rw [hg]
      exact hrun
    · rw [hlog]
      simp

theorem bvLoop_run (sys : Sys) (hp : ∀ t, sys.parseErr t = none)
    (hm : ∀ p, sys.mkdirErr p = none)
    (hr : ∀ t c, ∃ out, sys.renderRes t c = Except.ok out)
    (path name : String) (data : Ctx) (st : St) :
    ∃ stF, generateBackendAndVarsTfvarsFiles sys path data name st =
      (ctxSet (ctxSet data "Environment" (.str "nonprod")) "Environment" (.str "prod"),
       stF, none) ∧
      stF.log = st.log ++
        [⟨"templates/generic/backend.tfvars.tmpl",
          path ++ "/backend/" ++ name ++ "_" ++ "nonprod" ++ ".tfvars",
          ctxSet data "Environment" (.str "nonprod")⟩,
         ⟨"templates/generic/vars.tfvars.tmpl",
          path ++ "/vars/" ++ name ++ "_" ++ "nonprod" ++ ".tfvars",
          ctxSet data "Environment" (.str "nonprod")⟩,
         ⟨"templates/generic/backend.tfvars.tmpl",
          path ++ "/backend/" ++ name ++ "_" ++ "prod" ++ ".tfvars",
          ctxSet (ctxSet data "Environment" (.str "nonprod")) "Environment" (.str "prod")⟩,
         ⟨"templates/generic/vars.tfvars.tmpl",
          path ++ "/vars/" ++ name ++ "_" ++ "prod" ++ ".tfvars",
          ctxSet (ctxSet data "Environment" (.str "nonprod")) "Environment" (.str "prod")⟩] := by
  obtain ⟨st1, hrun1, hlog1⟩ := runFiles_run sys hp hm hr
    (ctxSet data "Environment" (.str "nonprod"))
    [("templates/generic/backend.tfvars.tmpl",
      path ++ "/backend/" ++ name ++ "_" ++ "nonprod" ++ ".tfvars"),
     ("templates/generic/vars.tfvars.tmpl",
      path ++ "/vars/" ++ name ++ "_" ++ "nonprod" ++ ".tfvars")] st
  obtain ⟨st2, hrun2, hlog2⟩ := runFiles_run sys hp hm hr
    (ctxSet (ctxSet data "Environment" (.str "nonprod")) "Environment" (.str "prod"))
    [("templates/generic/backend.tfvars.tmpl",
      path ++ "/backend/" ++ name ++ "_" ++ "prod" ++ ".tfvars"),
     ("templates/generic/vars.tfvars.tmpl",
      path ++ "/vars/" ++ name ++ "_" ++ "prod" ++ ".tfvars")] st1
  refine ⟨st2, ?_, ?_⟩
  · simp only [generateBackendAndVarsTfvarsFiles, backendVarsEnvLoop, hrun1, hrun2]
  · rw [hlog2, hlog1]
    simp

/-- Claim C5: a customer entity's generation performs exactly this ordered
render list: the four base-pass files (generic providers file,
provider-specific main file, generic variable-declarations file, generic
base-values file, in that fixed order), then for each environment in the
order nonprod, prod a backend-values file `<name>_<env>.tfvars` under
`backend/` followed by a values file of the same name under `vars/` — eight
files per customer in total. -/
theorem customer_file_plan (sys : Sys)
    (hp : ∀ t, sys.parseErr t = none) (hm : ∀ p, sys.mkdirErr p = none)
    (hr : ∀ t c, ∃ out, sys.renderRes t c = Except.ok out)
    (req : GenerateRequest) (config : Config) (path name : String)
    (provider : Provider) (st : St) :
    (generateCustomerFiles sys req config path name provider st).2 = none ∧
    (generateCustomerFiles sys req config path name provider st).1.log = st.log ++
      [⟨"templates/generic/providers.tf.tmpl", path ++ "/providers.tf",
        prepareTemplateData req config provider name⟩,
       ⟨"templates/" ++ req.Provider ++ "/main.tf.tmpl", path ++ "/main.tf",
        prepareTemplateData req config provider name⟩,
       ⟨"templates/generic/variables.tf.tmpl", path ++ "/variables.tf",
        prepareTemplateData req config provider name⟩,
       ⟨"templates/generic/vars.tfvars.tmpl", path ++ "/vars.tfvars",
        prepareTemplateData req config provider name⟩,
       ⟨"templates/generic/backend.tfvars.tmpl",
        path ++ "/backend/" ++ name ++ "_" ++ "nonprod" ++ ".tfvars",
        ctxSet (prepareTemplateData req config provider name) "Environment" (.str "nonprod")⟩,
       ⟨"templates/generic/vars.tfvars.tmpl",
        path ++ "/vars/" ++ name ++ "_" ++ "nonprod" ++ ".tfvars",
        ctxSet (prepareTemplateData req config provider name) "Environment" (.str "nonprod")⟩,
       ⟨"templates/generic/backend.tfvars.tmpl",
        path ++ "/backend/" ++ name ++ "_" ++ "prod" ++ ".tfvars",
        ctxSet (ctxSet (prepareTemplateData req config provider name) "Environment"
          (.str "nonprod")) "Environment" (.str "prod")⟩,
       ⟨"templates/generic/vars.tfvars.tmpl",
        path ++ "/vars/" ++ name ++ "_" ++ "prod" ++ ".tfvars",
        ctxSet (ctxSet (prepareTemplateData req config provider name) "Environment"
          (.str "nonprod")) "Environment" (.str "prod")⟩] := by
  obtain ⟨st1, hrun1, hlog1⟩ := runFiles_run sys hp hm hr
    (prepareTemplateData req config provider name)
    [("templates/generic/providers.tf.tmpl", path ++ "/providers.tf"),
     ("templates/" ++ req.Provider ++ "/main.tf.tmpl", path ++ "/main.tf"),
     ("templates/generic/variables.tf.tmpl", path ++ "/variables.tf"),
     ("templates/generic/vars.tfvars.tmpl", path ++ "/vars.tfvars")] st
  obtain ⟨st2, hrun2, hlog2⟩ := bvLoop_run sys hp hm hr path name
    (prepareTemplateData req config provider name) st1
  have hmain : generateCustomerFiles sys req config path name provider st = (st2, none) := by
    simp only [generateCustomerFiles, generateTerraformFiles, hrun1, hrun2]
  rw [hmain]
  refine ⟨rfl, ?_⟩
  rw [hlog2, hlog1]
  simp

/-- Witness for the C5 theorem: a concrete customer run succeeds. -/
theorem customer_file_plan_witness :
    (generateCustomerFiles sys0 req0 cfg0 "output/azurerm/acme-org/acme" "acme"
      ⟨"azurerm"⟩ st0).2 = none :=
  (customer_file_plan sys0 (fun _ => rfl) (fun _ => rfl) (fun _ _ => ⟨"rendered", rfl⟩)
    req0 cfg0 "output/azurerm/acme-org/acme" "acme" ⟨"azurerm"⟩ st0).1

/-- Claim C9: during the per-environment loop the shared data context's
"Environment" key is set to the current environment value before each render
(each logged render in environment e carries the context updated to e), no
other key is modified, and after the loop completes the context's
"Environment" is "prod", the last environment. -/
theorem environment_mutation_in_env_loop (sys : Sys)
    (hp : ∀ t, sys.parseErr t = none) (hm : ∀ p, sys.mkdirErr p = none)
    (hr : ∀ t c, ∃ out, sys.renderRes t c = Except.ok out)
    (path name : String) (data : Ctx) (st : St) :
    (generateBackendAndVarsTfvarsFiles sys path data name st).2.2 = none ∧
    (∀ k, k ≠ "Environment" →
      (generateBackendAndVarsTfvarsFiles sys path data name st).1 k = data k) ∧
    (generateBackendAndVarsTfvarsFiles sys path data name st).1 "Environment"
      = some (.str "prod") ∧
    (generateBackendAndVarsTfvarsFiles sys path data name st).2.1.log = st.log ++
      [⟨"templates/generic/backend.tfvars.tmpl",
        path ++ "/backend/" ++ name ++ "_" ++ "nonprod" ++ ".tfvars",
        ctxSet data "Environment" (.str "nonprod")⟩,
       ⟨"templates/generic/vars.tfvars.tmpl",
        path ++ "/vars/" ++ name ++ "_" ++ "nonprod" ++ ".tfvars",
        ctxSet data "Environment" (.str "nonprod")⟩,
       ⟨"templates/generic/backend.tfvars.tmpl",
        path ++ "/backend/" ++ name ++ "_" ++ "prod" ++ ".tfvars",
        ctxSet (ctxSet data "Environment" (.str "nonprod")) "Environment" (.str "prod")⟩,
       ⟨"templates/generic/vars.tfvars.tmpl",
        path ++ "/vars/" ++ name ++ "_" ++ "prod" ++ ".tfvars",
        ctxSet (ctxSet data "Environment" (.str "nonprod")) "Environment" (.str "prod")⟩] := by
  obtain ⟨stF, hrun, hlog⟩ := bvLoop_run sys hp hm hr path name data st
  rw [hrun]
  refine ⟨rfl, ?_, ?_, hlog⟩
  · intro k hk
    simp [ctxSet, hk]
  · simp [ctxSet]

/-- Witness for the C9 theorem: a concrete environment loop succeeds. -/
theorem environment_mutation_in_env_loop_witness :
    (generateBackendAndVarsTfvarsFiles sys0 "output/azurerm/acme-org/acme"
      (prepareTemplateData req0 cfg0 ⟨"azurerm"⟩ "acme") "acme" st0).2.2 = none :=
  (environment_mutation_in_env_loop sys0 (fun _ => rfl) (fun _ => rfl)
    (fun _ _ => ⟨"rendered", rfl⟩) "output/azurerm/acme-org/acme" "acme"
    (prepareTemplateData req0 cfg0 ⟨"azurerm"⟩ "acme") st0).1

/-- Claim C6: a request with an empty organisation, product or provider name,
or whose provider does not resolve through the alias table to a configured
provider, makes generate return an error with the state untouched — no
directory created, no file written. -/
theorem validation_fails_before_io (sys : Sys) (req : GenerateRequest) (st : St)
    (h : req.OrganisationName = "" ∨ req.ProductName = "" ∨ req.Provider = "" ∨
      ∀ config, sys.loadCfg = Except.ok config →
        filterProviderData config.Providers req.Provider = none) :
    (GenerateTerraform sys req st).1 = st ∧
    (GenerateTerraform sys req st).2.isSome = true := by
  unfold GenerateTerraform
  by_cases hv : req.OrganisationName = "" ∨ req.ProductName = "" ∨ req.Provider = ""
  · rw [if_pos hv]
    exact ⟨rfl, rfl⟩
  · rw [if_neg hv]
    have h4 : ∀ config, sys.loadCfg = Except.ok config →
        filterProviderData config.Providers req.Provider = none := by tauto
    cases hcfg : sys.loadCfg with
    | error e => exact ⟨rfl, rfl⟩
    | ok config => simp [h4 config hcfg]

/-- Witness for the C6 theorem: the provider "digitalocean" resolves to no
configured provider, so nothing is written. -/
theorem validation_fails_before_io_witness :
    (GenerateTerraform sys0 req0 st0).1 = st0 ∧
    (GenerateTerraform sys0 req0 st0).2.isSome = true :=
  validation_fails_before_io sys0 req0 st0
    (Or.inr (Or.inr (Or.inr (fun config hc => by
      rw [show sys0.loadCfg = Except.ok cfg0 from rfl] at hc
      injection hc with h
      subst h
      decide))))

theorem processCustomersList_cons (sys : Sys) (req : GenerateRequest) (config : Config)
    (basePath : String) (provider : Provider) (c : String) (rest : List String) (st : St) :
    processCustomersList sys req config basePath provider (c :: rest) st =
      (match CreateDirectories sys
          [basePath ++ "/" ++ c.trim ++ "/backend", basePath ++ "/" ++ c.trim ++ "/vars"] st with
       | (st1, some e) => (st1, some e)
       | (st1, none) =>
         match generateCustomerFiles sys req config (basePath ++ "/" ++ c.trim)
             c.trim provider st1 with
         | (st2, some e) => (st2, some e)
         | (st2, none) => processCustomersList sys req config basePath provider rest st2) :=
  rfl

/-- Claim C7: customers are processed in request order; the first failure
(directory creation or file generation) for any customer ends processing
with that error — appending further customers changes nothing — and on
success the state written for earlier customers is the starting state for
the rest, never rolled back. -/
theorem processCustomers_fail_fast_no_rollback (sys : Sys) (req : GenerateRequest)
    (config : Config) (basePath : String) (provider : Provider)
    (l1 l2 : List String) (st : St) :
    processCustomersList sys req config basePath provider (l1 ++ l2) st =
      (if (processCustomersList sys req config basePath provider l1 st).2.isSome then
        processCustomersList sys req config basePath provider l1 st
      else
        processCustomersList sys req config basePath provider l2
          (processCustomersList sys req config basePath provider l1 st).1) := by
  induction l1 generalizing st with
  | nil => simp [processCustomersList]
  | cons c rest ih =>
    rw [List.cons_append,
      processCustomersList_cons sys req config basePath provider c (rest ++ l2) st,
      processCustomersList_cons sys req config basePath provider c rest st]
    cases hcd : CreateDirectories sys
        [basePath ++ "/" ++ c.trim ++ "/backend", basePath ++ "/" ++ c.trim ++ "/vars"] st with
    | mk st1 oe1 =>
      cases oe1 with
      | some e => simp
      | none =>
        cases hgc : generateCustomerFiles sys req config (basePath ++ "/" ++ c.trim)
            c.trim provider st1 with
        | mk st2 oe2 =>
          cases oe2 with
          | some e => simp [hgc]
          | none =>
            simp only [hgc]
            simpa using ih st2
